import Mathlib

/-
Verification of the slang edalize plugin (src/edalize/slang.py): a flag
builder that turns a declarative project description into the argv of the
external slang tool.  The Python methods mutate the instance list
self.flags; here each method is embedded as a function from the current
flag list to the updated flag list, with its other inputs passed
explicitly.  Python dicts iterate in insertion order, so the vlogdefine
and vlogparam mappings are embedded as association lists.
-/

namespace Slang

/-- A file descriptor supplied by the fileset collaborator: a path and a
file-type tag, as consumed by the method reading the fileset. -/
structure FileObj where
  name : String
  file_type : String

/-- Python whitespace test used by str.split with no argument: space, tab,
newline, carriage return, vertical tab and form feed. -/
def isPySpace (c : Char) : Bool :=
  c == ' ' || c == '\t' || c == '\n' || c == '\r' || c == '\x0b' || c == '\x0c'

/-- Helper for the embedding of Python str.split(): walks the character
list keeping the current run of non-whitespace characters (reversed) in the
accumulator, emitting it whenever a whitespace character or the end is
reached.  Tokens are the maximal non-whitespace runs; no empty tokens. -/
def splitWsAux (acc : List Char) : List Char → List (List Char)
  | [] => if acc.isEmpty then [] else [acc.reverse]
  | c :: cs =>
    if isPySpace c then
      if acc.isEmpty then splitWsAux [] cs else acc.reverse :: splitWsAux [] cs
    else
      splitWsAux (c :: acc) cs

/-- Embeds Python s.split() with no separator: split on runs of whitespace,
dropping empty tokens. -/
def pySplit (s : String) : List String :=
  (splitWsAux [] s.toList).map (fun l => String.mk l)

/-- Embeds Python sep.join on a list of strings, at the character level:
the pieces interleaved with the separator. -/
def joinSep (sep : List Char) : List (List Char) → List Char
  | [] => []
  | [x] => x
  | x :: y :: tl => x ++ sep ++ joinSep sep (y :: tl)

/-- Embeds Python sep.join(xs) for a list of strings xs. -/
def pyJoin (sep : String) (xs : List String) : String :=
  String.mk (joinSep sep.toList (xs.map String.toList))

/-- Python iteration over a string yields its characters as one-character
strings; this is what a join over a string value iterates. -/
def pyStrIter (s : String) : List String :=
  s.toList.map (fun c => String.mk [c])

/-- Modelled from the spec: the value renderer of the external Edatool base
class (not part of this adapter) turns string, int and bool define and
parameter values into the text of -D key=value and -G key=value flags. -/
inductive PValue where
  | str (s : String)
  | int (i : Int)
  | bool (b : Bool)

/-- Modelled from the spec: rendering of a define or parameter value. -/
def paramValueStr : PValue → String
  | .str s => s
  | .int i => toString i
  | .bool b => if b then "1" else "0"

/-- The inputs consumed by the flag-building phases: the two value
mappings, the fileset (include directories and file descriptors), the two
recognized tool options and the top-level module name.  The tool options
default to the empty string when missing, exactly as tool_options.get with
default. -/
structure SlangInputs where
  vlogdefine : List (String × PValue)
  vlogparam : List (String × PValue)
  incdirs : List String
  src_files : List FileObj
  slang_options : String
  mode : String
  toplevel : String

/-- Embeds the define phase: for each vlogdefine entry, append the single
token made of -D, the key, an equals sign and the rendered value. -/
def get_define_flags (vlogdefine : List (String × PValue)) (flags : List String) : List String :=
  vlogdefine.foldl (fun fs kv => fs ++ ["-D " ++ kv.1 ++ "=" ++ paramValueStr kv.2]) flags

/-- Embeds the parameter phase: one -G key=value token per vlogparam
entry. -/
def get_param_flags (vlogparam : List (String × PValue)) (flags : List String) : List String :=
  vlogparam.foldl (fun fs kv => fs ++ ["-G " ++ kv.1 ++ "=" ++ paramValueStr kv.2]) flags

/-- Source-type classification: embeds re.match of the pattern
(:?systemV|v)erilogSource against the type tag.  The group matches an
optional colon then systemV, or v, so the whole pattern is a match at the
start of the tag against systemVerilogSource, :systemVerilogSource or
verilogSource. -/
def fileTypeIsSource (t : String) : Bool :=
  "systemVerilogSource".toList.isPrefixOf t.toList ||
  ":systemVerilogSource".toList.isPrefixOf t.toList ||
  "verilogSource".toList.isPrefixOf t.toList

/-- Waiver classification: embeds re.match of the pattern slangWaiver
against the type tag. -/
def fileTypeIsWaiver (t : String) : Bool :=
  "slangWaiver".toList.isPrefixOf t.toList

/-- Embeds the file phase: first the loop appending -I and the directory
for every include directory, then the loop over file descriptors appending
the name of each source-typed file and the pair --waiver-file name for each
waiver-typed file. -/
def get_file_names (incdirs : List String) (src_files : List FileObj) (flags : List String) : List String :=
  src_files.foldl
    (fun fs f =>
      let fs1 := if fileTypeIsSource f.file_type then fs ++ [f.name] else fs
      if fileTypeIsWaiver f.file_type then fs1 ++ ["--waiver-file", f.name] else fs1)
    (incdirs.foldl (fun fs dir => fs ++ ["-I", dir]) flags)

/-- Embeds the run-mode phase: equality comparison of the mode string. -/
def get_run_mode_flags (mode : String) (flags : List String) : List String :=
  if mode = "lint" then flags ++ ["--lint-only", "--print-unused-waivers"]
  else if mode = "preprocess" then flags ++ ["--preprocess"]
  else flags

/-- Embeds the user-option phase, the Python line
self.flags += " ".join(slang_options).split()
with slang_options the string fetched from tool_options (default the empty
string): the join iterates the characters of the string. -/
def get_slang_options (slang_options : String) (flags : List String) : List String :=
  flags ++ pySplit (pyJoin " " (pyStrIter slang_options))

/-- Embeds the top-level phase: when the top-level name is not the empty
string, append --top and the name. -/
def get_top_flags (toplevel : String) (flags : List String) : List String :=
  if toplevel ≠ "" then flags ++ ["--top", toplevel] else flags

/-- The flag accumulation of build_main: the six phases in source order,
defines, parameters, files, user options, mode, top. -/
def build_flags (inp : SlangInputs) (flags : List String) : List String :=
  get_top_flags inp.toplevel
    (get_run_mode_flags inp.mode
      (get_slang_options inp.slang_options
        (get_file_names inp.incdirs inp.src_files
          (get_param_flags inp.vlogparam
            (get_define_flags inp.vlogdefine flags)))))

/-- Embeds build_main: accumulate the flags, then invoke the external tool.
The argument runToolErr abstracts the tool runner of the base class: none
is success, some d a failure whose detail d (the text of the error raised
with the full command line) is caught and replaced by the fixed message. -/
def build_main (inp : SlangInputs) (flags : List String) (runToolErr : Option String) : Except String (List String) :=
  match runToolErr with
  | some _ => Except.error "Slang lint check failed"
  | none => Except.ok (build_flags inp flags)

/-- Embeds configure_main: reset the flag list to empty. -/
def configure_main (_flags : List String) : List String := []

/-- The tokens the define phase contributes. -/
def defineTokens (vlogdefine : List (String × PValue)) : List String :=
  vlogdefine.map (fun kv => "-D " ++ kv.1 ++ "=" ++ paramValueStr kv.2)

/-- The tokens the parameter phase contributes. -/
def paramTokens (vlogparam : List (String × PValue)) : List String :=
  vlogparam.map (fun kv => "-G " ++ kv.1 ++ "=" ++ paramValueStr kv.2)

/-- The tokens the include-directory loop contributes. -/
def incdirTokens : List String → List String
  | [] => []
  | d :: tl => "-I" :: d :: incdirTokens tl

/-- The tokens the file-descriptor loop contributes. -/
def srcFileTokens : List FileObj → List String
  | [] => []
  | f :: tl =>
    (if fileTypeIsSource f.file_type then [f.name] else []) ++
    ((if fileTypeIsWaiver f.file_type then ["--waiver-file", f.name] else []) ++ srcFileTokens tl)

/-- The tokens the user-option phase contributes. -/
def optionTokens (slang_options : String) : List String :=
  pySplit (pyJoin " " (pyStrIter slang_options))

/-- The tokens the run-mode phase contributes. -/
def modeTokens (mode : String) : List String :=
  if mode = "lint" then ["--lint-only", "--print-unused-waivers"]
  else if mode = "preprocess" then ["--preprocess"]
  else []

/-- The tokens the top-level phase contributes. -/
def topTokens (toplevel : String) : List String :=
  if toplevel = "" then [] else ["--top", toplevel]

/-- All tokens contributed by one pass of the flag accumulation. -/
def slangTokens (inp : SlangInputs) : List String :=
  defineTokens inp.vlogdefine ++ paramTokens inp.vlogparam ++
  incdirTokens inp.incdirs ++ srcFileTokens inp.src_files ++
  optionTokens inp.slang_options ++ modeTokens inp.mode ++ topTokens inp.toplevel

theorem get_define_flags_eq (d : List (String × PValue)) :
    ∀ fs, get_define_flags d fs = fs ++ defineTokens d := by
  induction d with
  | nil => intro fs; simp [get_define_flags, defineTokens]
  | cons kv tl ih =>
    intro fs
    have h1 : get_define_flags (kv :: tl) fs
        = get_define_flags tl (fs ++ ["-D " ++ kv.1 ++ "=" ++ paramValueStr kv.2]) := rfl
    rw [h1, ih]
    simp [defineTokens]

theorem get_param_flags_eq (p : List (String × PValue)) :
    ∀ fs, get_param_flags p fs = fs ++ paramTokens p := by
  induction p with
  | nil => intro fs; simp [get_param_flags, paramTokens]
  | cons kv tl ih =>
    intro fs
    have h1 : get_param_flags (kv :: tl) fs
        = get_param_flags tl (fs ++ ["-G " ++ kv.1 ++ "=" ++ paramValueStr kv.2]) := rfl
    rw [h1, ih]
    simp [paramTokens]

theorem foldl_incdirs_eq (dirs : List String) :
    ∀ fs, dirs.foldl (fun fs dir => fs ++ ["-I", dir]) fs = fs ++ incdirTokens dirs := by
  induction dirs with
  | nil => intro fs; simp [incdirTokens]
  | cons d tl ih =>
    intro fs
    rw [List.foldl_cons, ih]
    simp [incdirTokens]

theorem foldl_src_files_eq (files : List FileObj) :
    ∀ fs, files.foldl
        (fun fs f =>
          let fs1 := if fileTypeIsSource f.file_type then fs ++ [f.name] else fs
          if fileTypeIsWaiver f.file_type then fs1 ++ ["--waiver-file", f.name] else fs1)
        fs = fs ++ srcFileTokens files := by
  induction files with
  | nil => intro fs; simp [srcFileTokens]
  | cons f tl ih =>
    intro fs
    rw [List.foldl_cons, ih]
    cases hs : fileTypeIsSource f.file_type <;> cases hw : fileTypeIsWaiver f.file_type <;>
      simp [srcFileTokens, hs, hw]

theorem get_file_names_eq (incdirs : List String) (src_files : List FileObj) (fs : List String) :
    get_file_names incdirs src_files fs = fs ++ incdirTokens incdirs ++ srcFileTokens src_files := by
  unfold get_file_names
  rw [foldl_src_files_eq, foldl_incdirs_eq]

theorem get_run_mode_flags_eq (m : String) (fs : List String) :
    get_run_mode_flags m fs = fs ++ modeTokens m := by
  by_cases h1 : m = "lint" <;> by_cases h2 : m = "preprocess" <;>
    simp [get_run_mode_flags, modeTokens, h1, h2]

theorem get_slang_options_eq (s : String) (fs : List String) :
    get_slang_options s fs = fs ++ optionTokens s := rfl

theorem get_top_flags_eq (t : String) (fs : List String) :
    get_top_flags t fs = fs ++ topTokens t := by
  by_cases h : t = "" <;> simp [get_top_flags, topTokens, h]

theorem build_flags_eq (inp : SlangInputs) (fs : List String) :
    build_flags inp fs = fs ++ slangTokens inp := by
  unfold build_flags slangTokens
  rw [get_define_flags_eq, get_param_flags_eq, get_file_names_eq, get_slang_options_eq,
    get_run_mode_flags_eq, get_top_flags_eq]
  simp

theorem isPySpace_space : isPySpace ' ' = true := rfl

theorem splitWs_join_singletons (l : List Char) :
    splitWsAux [] (joinSep [' '] (l.map (fun c => [c])))
      = (l.filter (fun c => !(isPySpace c))).map (fun c => [c]) := by
  induction l with
  | nil => rfl
  | cons c tl ih =>
    cases tl with
    | nil => cases hc : isPySpace c <;> simp [joinSep, splitWsAux, hc]
    | cons c2 tl2 =>
      have hJ : joinSep [' '] ((c :: c2 :: tl2).map (fun c => [c]))
          = c :: ' ' :: joinSep [' '] ((c2 :: tl2).map (fun c => [c])) := rfl
      rw [hJ]
      cases hc : isPySpace c <;>
        all_goals (simp [splitWsAux, hc, isPySpace_space]; simpa using ih)

/-- The user-option phase on a string value, in closed form: one
single-character token per non-whitespace character, in order.  This is the
effect of iterating the characters of the string in the join. -/
theorem get_slang_options_chars (s : String) (fs : List String) :
    get_slang_options s fs
      = fs ++ (s.toList.filter (fun c => !(isPySpace c))).map (fun c => String.mk [c]) := by
  have h1 : ∀ L : List Char, (String.mk L).toList = L := fun L => rfl
  have h2 : (s.toList.map (fun c => String.mk [c])).map String.toList
      = s.toList.map (fun c => [c]) := by
    rw [List.map_map]; rfl
  have h3 : " ".toList = [' '] := rfl
  unfold get_slang_options pySplit pyJoin pyStrIter
  rw [h1, h2, h3, splitWs_join_singletons, List.map_map]
  rfl

theorem toList_append (a b : String) : (a ++ b).toList = a.toList ++ b.toList := by
  obtain ⟨la⟩ := a
  obtain ⟨lb⟩ := b
  rfl

theorem isPrefixOf_append_self : ∀ (l r : List Char), l.isPrefixOf (l ++ r) = true
  | [], r => by simp [List.isPrefixOf]
  | a :: l, r => by simp [List.isPrefixOf, isPrefixOf_append_self l r]

/-- C1: the claim states that for a slang_options string s the user-option
phase appends exactly the whitespace-split of s, each token verbatim and
never split further.  Evaluating the embedded phase at s = "ab cd" refutes
this: the code appends the four single-character tokens a, b, c, d, because
the join in the line self.flags += " ".join(slang_options).split() iterates
the characters of a string value.  pySplit embeds Python str.split(), the
behaviour the claim (and the example in the class docstring) describes. -/
theorem C1_eval_at_failing_input :
    get_slang_options "ab cd" [] = ["a", "b", "c", "d"] ∧
    pySplit "ab cd" = ["ab", "cd"] ∧
    get_slang_options "ab cd" [] ≠ pySplit "ab cd" := by
  refine ⟨?_, ?_, ?_⟩ <;> decide

/-- C2: whenever the external invocation fails, whatever the underlying
failure detail, build_main produces exactly one error, and its message is
the fixed string with no argument detail in it. -/
theorem C2_single_error_fixed_message (inp : SlangInputs) (fs : List String) (detail : String) :
    build_main inp fs (some detail) = Except.error "Slang lint check failed" := rfl

/-- C3: the run-mode phase appends the lint-only and unused-waiver flags
exactly when the mode equals "lint", the preprocess flag exactly when it
equals "preprocess", and nothing (with no error) otherwise. -/
theorem C3_run_mode_flags (m : String) (fs : List String) :
    get_run_mode_flags m fs
        = fs ++ (if m = "lint" then ["--lint-only", "--print-unused-waivers"]
            else if m = "preprocess" then ["--preprocess"] else []) ∧
    (("--lint-only" ∈ get_run_mode_flags m [] ∧ "--print-unused-waivers" ∈ get_run_mode_flags m [])
        ↔ m = "lint") ∧
    ("--preprocess" ∈ get_run_mode_flags m [] ↔ m = "preprocess") := by
  by_cases h1 : m = "lint" <;> by_cases h2 : m = "preprocess"
  · exact absurd (h1.symm.trans h2) (by decide)
  · simp [get_run_mode_flags, h1, h2]
  · simp [get_run_mode_flags, h1, h2]
  · simp [get_run_mode_flags, h1, h2]

theorem C3_rmf_witness : "--lint-only" ∈ get_run_mode_flags "lint" [] :=
  ((C3_run_mode_flags "lint" []).2.1.mpr rfl).1

/-- C4: the file phase appends the pair -I dir once per include directory,
one name token per descriptor whose type tag matches the source regex, and
the pair --waiver-file name once per descriptor matching the waiver tag; in
particular a fileset with one source file and one waiver file contributes
the source path once and the waiver pair once. -/
theorem C4_file_flags :
    (∀ (incdirs : List String) (src_files : List FileObj) (fs : List String),
        get_file_names incdirs src_files fs
          = fs ++ incdirTokens incdirs ++ srcFileTokens src_files) ∧
    get_file_names ["inc"] [⟨"top.sv", "systemVerilogSource"⟩, ⟨"rules.vlt", "slangWaiver"⟩] []
      = ["-I", "inc", "top.sv", "--waiver-file", "rules.vlt"] ∧
    (get_file_names ["inc"] [⟨"top.sv", "systemVerilogSource"⟩, ⟨"rules.vlt", "slangWaiver"⟩]
      []).count "top.sv" = 1 ∧
    (get_file_names ["inc"] [⟨"top.sv", "systemVerilogSource"⟩, ⟨"rules.vlt", "slangWaiver"⟩]
      []).count "--waiver-file" = 1 :=
  ⟨get_file_names_eq, by decide, by decide, by decide⟩

/-- C5: when the top-level name is a non-empty string t the completed flag
sequence ends with the two tokens --top and t; when it is empty the top
phase appends nothing. -/
theorem C5_top_flag :
    (∀ (t : String) (fs : List String),
        get_top_flags t fs = fs ++ (if t = "" then [] else ["--top", t])) ∧
    (∀ (inp : SlangInputs) (fs : List String),
        build_flags inp fs
          = get_run_mode_flags inp.mode
              (get_slang_options inp.slang_options
                (get_file_names inp.incdirs inp.src_files
                  (get_param_flags inp.vlogparam
                    (get_define_flags inp.vlogdefine fs))))
            ++ (if inp.toplevel = "" then [] else ["--top", inp.toplevel])) := by
  constructor
  · intro t fs
    rw [get_top_flags_eq]
    rfl
  · intro inp fs
    unfold build_flags
    rw [get_top_flags_eq]
    rfl

/-- C6: one token per define entry of the form -D key=value and one token
per parameter entry of the form -G key=value, in the iteration order of the
mapping; the defines A mapped to 1 and B mapped to "x" yield the tokens
-D A=1 and -D B=x in that order. -/
theorem C6_define_param_flags :
    (∀ (d : List (String × PValue)) (fs : List String),
        get_define_flags d fs
          = fs ++ d.map (fun kv => "-D " ++ kv.1 ++ "=" ++ paramValueStr kv.2)) ∧
    (∀ (p : List (String × PValue)) (fs : List String),
        get_param_flags p fs
          = fs ++ p.map (fun kv => "-G " ++ kv.1 ++ "=" ++ paramValueStr kv.2)) ∧
    get_define_flags [("A", PValue.int 1), ("B", PValue.str "x")] [] = ["-D A=1", "-D B=x"] :=
  ⟨get_define_flags_eq, get_param_flags_eq, by decide⟩

/-- C7: the flag sequence is built in the fixed phase order defines,
parameters, files (include directories then descriptors), user options,
mode flags, top flag, appended after whatever flags were already there. -/
theorem C7_phase_order (inp : SlangInputs) (fs : List String) :
    build_flags inp fs
      = fs ++ defineTokens inp.vlogdefine ++ paramTokens inp.vlogparam
          ++ incdirTokens inp.incdirs ++ srcFileTokens inp.src_files
          ++ optionTokens inp.slang_options ++ modeTokens inp.mode
          ++ topTokens inp.toplevel := by
  rw [build_flags_eq]
  simp [slangTokens, List.append_assoc]

/-- C8: an unrecognized or missing mode, an empty extra-options string and
an empty top-level name are pure no-ops for their phases, never errors, and
the build still invokes the tool normally. -/
theorem C8_benign_noops (m t : String) (fs : List String) (inp : SlangInputs) :
    (m ≠ "lint" → m ≠ "preprocess" → get_run_mode_flags m fs = fs) ∧
    get_slang_options "" fs = fs ∧
    (t = "" → get_top_flags t fs = fs) ∧
    (inp.mode ≠ "lint" → inp.mode ≠ "preprocess" → inp.slang_options = "" → inp.toplevel = "" →
      build_main inp fs none
        = Except.ok (get_file_names inp.incdirs inp.src_files
            (get_param_flags inp.vlogparam (get_define_flags inp.vlogdefine fs)))) := by
  refine ⟨fun h1 h2 => by simp [get_run_mode_flags, h1, h2],
    by simp [get_slang_options, pySplit, pyJoin, pyStrIter, joinSep, splitWsAux], ?_, ?_⟩
  · intro h
    simp [get_top_flags, h]
  · intro h1 h2 h3 h4
    show Except.ok (build_flags inp fs) = _
    unfold build_flags
    rw [h3, h4]
    have hs : get_slang_options "" (get_file_names inp.incdirs inp.src_files
        (get_param_flags inp.vlogparam (get_define_flags inp.vlogdefine fs)))
        = get_file_names inp.incdirs inp.src_files
            (get_param_flags inp.vlogparam (get_define_flags inp.vlogdefine fs)) := by
      simp [get_slang_options, pySplit, pyJoin, pyStrIter, joinSep, splitWsAux]
    rw [hs]
    simp [get_run_mode_flags, get_top_flags, h1, h2]

theorem C8_noops_witness :
    get_run_mode_flags "elaborate" ["x"] = ["x"] ∧
    build_main ⟨[], [], [], [], "", "elaborate", ""⟩ [] none
      = Except.ok (get_file_names [] [] (get_param_flags [] (get_define_flags [] []))) :=
  ⟨(C8_benign_noops "elaborate" "" ["x"] ⟨[], [], [], [], "", "elaborate", ""⟩).1
      (by decide) (by decide),
   (C8_benign_noops "elaborate" "" [] ⟨[], [], [], [], "", "elaborate", ""⟩).2.2.2
      (by decide) (by decide) rfl rfl⟩

/-- C9: every phase is append-only (the incoming flag list is a prefix of
the outgoing one), configure_main resets the list to empty, and running the
flag accumulation of build_main twice without an intervening configure_main
appends every token of one pass twice. -/
theorem C9_append_only (inp : SlangInputs) (fs : List String) :
    fs <+: get_define_flags inp.vlogdefine fs ∧
    fs <+: get_param_flags inp.vlogparam fs ∧
    fs <+: get_file_names inp.incdirs inp.src_files fs ∧
    fs <+: get_slang_options inp.slang_options fs ∧
    fs <+: get_run_mode_flags inp.mode fs ∧
    fs <+: get_top_flags inp.toplevel fs ∧
    configure_main fs = [] ∧
    build_flags inp (build_flags inp fs) = fs ++ (slangTokens inp ++ slangTokens inp) := by
  refine ⟨⟨defineTokens inp.vlogdefine, (get_define_flags_eq _ _).symm⟩,
    ⟨paramTokens inp.vlogparam, (get_param_flags_eq _ _).symm⟩,
    ⟨incdirTokens inp.incdirs ++ srcFileTokens inp.src_files, ?_⟩,
    ⟨optionTokens inp.slang_options, (get_slang_options_eq _ _).symm⟩,
    ⟨modeTokens inp.mode, (get_run_mode_flags_eq _ _).symm⟩,
    ⟨topTokens inp.toplevel, (get_top_flags_eq _ _).symm⟩,
    rfl, ?_⟩
  · rw [get_file_names_eq, List.append_assoc]
  · rw [build_flags_eq, build_flags_eq, List.append_assoc]

/-- C10: type-tag classification is a match at the start of the tag, not
string equality: every tag beginning with verilogSource,
systemVerilogSource or :systemVerilogSource is a source file (so the tag
systemVerilogSource-2017 matches), every tag beginning with slangWaiver is
a waiver file, and a tag beginning with a capitalized VerilogSource is
neither. -/
theorem C10_type_tag_match :
    (∀ rest : String, fileTypeIsSource ("verilogSource" ++ rest) = true) ∧
    (∀ rest : String, fileTypeIsSource ("systemVerilogSource" ++ rest) = true) ∧
    (∀ rest : String, fileTypeIsSource (":systemVerilogSource" ++ rest) = true) ∧
    (∀ rest : String, fileTypeIsWaiver ("slangWaiver" ++ rest) = true) ∧
    fileTypeIsSource "systemVerilogSource-2017" = true ∧
    fileTypeIsWaiver "slangWaiver" = true ∧
    fileTypeIsSource "VerilogSource" = false ∧
    fileTypeIsSource "VerilogSource-2005" = false ∧
    fileTypeIsWaiver "VerilogSource" = false := by
  refine ⟨?_, ?_, ?_, ?_, by decide, by decide, by decide, by decide, by decide⟩ <;>
    intro rest <;>
    simp [fileTypeIsSource, fileTypeIsWaiver, toList_append, isPrefixOf_append_self]

end Slang
